import Mathlib

/-!
Verification of the BOLO-Signature coordinate/compositing pipeline.

The frontend (App.jsx) stores each placed field's geometry as fractions of
the rendering viewport, converts pixel geometry to fractions on drag/resize
(`updateFieldPosition`, `updateFieldSize`), re-derives pixels for display,
and converts fractions to bottom-left-origin page points (`toPdfCoords`).
The backend (`/sign-pdf` in index.js) takes a list of signature placements,
skips entries lacking an image or coordinates, and draws each remaining one
centered and aspect-fitted inside its placement rectangle.

JavaScript numbers are modelled as rationals (ℚ); nullable values as
`Option`; JavaScript truthiness of a number is `≠ 0`, of a string is
`≠ ""`, of a nullable is `Option.isSome` combined with the payload test.
-/

namespace BoloSignature

/-- A placed field, as kept in the frontend `fields` state array.
`value` is the field's payload (for signatures, a data URL; `""` until set). -/
structure Field where
  id : Nat
  page : Int
  xNorm : ℚ
  yNorm : ℚ
  widthNorm : ℚ
  heightNorm : ℚ
  value : String
deriving Repr, DecidableEq

/-- Page geometry from the document loader (`pageMeta` state):
`{ widthPts, heightPts }`, each `null` until the page loads. -/
structure PageMeta where
  widthPts : Option ℚ
  heightPts : Option ℚ
deriving Repr, DecidableEq

/-- JavaScript truthiness of a nullable number: `null`/`undefined` and `0`
are falsy. -/
def numTruthy : Option ℚ → Bool
  | none => false
  | some q => q ≠ 0

/-- The PDF-point rectangle returned by `toPdfCoords`. -/
structure PdfCoords where
  page : Option Int
  x : ℚ
  y : ℚ
  width : ℚ
  height : ℚ
  pageWidth : ℚ
  pageHeight : ℚ
deriving Repr, DecidableEq

/-- `toPdfCoords(field, pageMeta)` from App.jsx: converts normalized
top-left DOM coordinates into PDF points (origin bottom-left); returns
`null` when the field is absent or either page dimension is absent/zero. -/
def toPdfCoords (field : Option Field) (pageMeta : Option PageMeta) : Option PdfCoords :=
  match field, pageMeta with
  | some f, some pm =>
    match pm.widthPts, pm.heightPts with
    | some wPts, some hPts =>
      if wPts = 0 ∨ hPts = 0 then none
      else
        let x := f.xNorm * wPts
        let yTop := f.yNorm * hPts
        let height := f.heightNorm * hPts
        some { page := some f.page
               x := x
               y := hPts - yTop - height
               width := f.widthNorm * wPts
               height := height
               pageWidth := wPts
               pageHeight := hPts }
    | _, _ => none
  | _, _ => none

/-- The pixel→fraction update of `updateFieldPosition` applied to one field:
`xNorm = renderSize.width ? x / renderSize.width : 0`, and likewise for `y`
with the supplied `renderHeight`. -/
def applyPosition (renderWidth : ℚ) (x y renderHeight : ℚ) (f : Field) : Field :=
  { f with
    xNorm := if renderWidth ≠ 0 then x / renderWidth else 0
    yNorm := if renderHeight ≠ 0 then y / renderHeight else 0 }

/-- `updateFieldPosition(id, {x, y}, renderHeight)` from App.jsx: maps over
the fields array, rewriting only the field with the given id. -/
def updateFieldPosition (renderWidth : ℚ) (fields : List Field) (id : Nat)
    (x y renderHeight : ℚ) : List Field :=
  fields.map (fun f => if f.id = id then applyPosition renderWidth x y renderHeight f else f)

/-- The pixel→fraction update of `updateFieldSize` applied to one field:
`widthNorm = renderSize.width ? width / renderSize.width : f.widthNorm`,
and likewise for height. -/
def applySize (renderWidth : ℚ) (width height renderHeight : ℚ) (f : Field) : Field :=
  { f with
    widthNorm := if renderWidth ≠ 0 then width / renderWidth else f.widthNorm
    heightNorm := if renderHeight ≠ 0 then height / renderHeight else f.heightNorm }

/-- `updateFieldSize(id, {width, height}, renderHeight)` from App.jsx. -/
def updateFieldSize (renderWidth : ℚ) (fields : List Field) (id : Nat)
    (width height renderHeight : ℚ) : List Field :=
  fields.map (fun f => if f.id = id then applySize renderWidth width height renderHeight f else f)

/-- The fraction→pixel derivation in the render overlay of App.jsx:
`x = field.xNorm * renderSize.width; y = field.yNorm * renderHeight;
width = field.widthNorm * renderSize.width; height = field.heightNorm * renderHeight`. -/
def fieldPixels (f : Field) (renderWidth renderHeight : ℚ) : ℚ × ℚ × ℚ × ℚ :=
  (f.xNorm * renderWidth, f.yNorm * renderHeight,
   f.widthNorm * renderWidth, f.heightNorm * renderHeight)

/-! ## Backend `/sign-pdf` (index.js) -/

/-- One element of the request's `signatures` array: a data URL (possibly
absent or empty) and a coordinates object (possibly absent). -/
structure SigEntry where
  signatureDataUrl : Option String
  coordinates : Option PdfCoords
deriving Repr, DecidableEq

/-- JavaScript truthiness of a nullable string: `null`/`undefined` and `""`
are falsy. -/
def strTruthy : Option String → Bool
  | none => false
  | some s => s ≠ ""

/-- The loop guard in index.js: `if (!signatureDataUrl || !coordinates) continue`.
An entry is burned only when its data URL is truthy and coordinates present. -/
def validEntry (e : SigEntry) : Bool :=
  strTruthy e.signatureDataUrl && e.coordinates.isSome

/-- `Math.max(0, (coordinates.page || 1) - 1)` from index.js: 1-based page
(defaulting a falsy value to 1) to 0-based page index, clamped at 0. -/
def pageIndexOf (page : Option Int) : Int :=
  let p : Int := match page with
    | none => 1
    | some q => if q = 0 then 1 else q
  max 0 (p - 1)

/-- `scale = Math.min(boxWidth / signatureImage.width, boxHeight / signatureImage.height)`
from index.js. -/
def fitScale (boxWidth boxHeight imgW imgH : ℚ) : ℚ :=
  min (boxWidth / imgW) (boxHeight / imgH)

/-- The draw call issued for one placement: target page index and the final
rectangle passed to `page.drawImage`. -/
structure DrawOp where
  pageIndex : Int
  x : ℚ
  y : ℚ
  width : ℚ
  height : ℚ
deriving Repr, DecidableEq

/-- The geometry computed per placement in index.js: aspect-fit scale, draw
size, and centering of the draw rectangle inside the coordinates box. -/
def drawRect (c : PdfCoords) (imgW imgH : ℚ) : DrawOp :=
  let boxWidth := c.width
  let boxHeight := c.height
  let scale := fitScale boxWidth boxHeight imgW imgH
  let drawWidth := imgW * scale
  let drawHeight := imgH * scale
  { pageIndex := pageIndexOf c.page
    x := c.x + (boxWidth - drawWidth) / 2
    y := c.y + (boxHeight - drawHeight) / 2
    width := drawWidth
    height := drawHeight }

/-- One iteration of the burn loop: skip the entry unless its data URL and
coordinates are both present, otherwise compute its draw call. `dims` is
the external image decoder (`pdfDoc.embedPng`), yielding the intrinsic
width and height of the image encoded by the data URL. -/
def drawForEntry (dims : String → ℚ × ℚ) (e : SigEntry) : Option DrawOp :=
  match e.signatureDataUrl, e.coordinates with
  | some s, some c =>
    if s ≠ "" then
      let wh := dims s
      some (drawRect c wh.1 wh.2)
    else none
  | _, _ => none

/-- The whole burn loop of index.js: the draw calls performed, in order. -/
def burnBatch (dims : String → ℚ × ℚ) (entries : List SigEntry) : List DrawOp :=
  entries.filterMap (drawForEntry dims)

/-- The body of a `/sign-pdf` request: either a `signatures` array or the
legacy single `signatureDataUrl` + `coordinates` pair. -/
structure SignRequest where
  signatures : Option (List SigEntry)
  signatureDataUrl : Option String
  coordinates : Option PdfCoords
deriving Repr, DecidableEq

/-- The observable outcome of `/sign-pdf`: a 400 rejection with a message,
or a signed output document characterised by the draw calls burned into it. -/
inductive SignResult where
  | badRequest (message : String)
  | output (draws : List DrawOp)
deriving Repr, DecidableEq

/-- The `/sign-pdf` handler of index.js, up to the external PDF library:
builds `signatureList` from either request format (rejecting when neither is
usable), rejects an empty list, then burns every entry and produces the
signed document. -/
def signPdf (dims : String → ℚ × ℚ) (req : SignRequest) : SignResult :=
  let signatureList : Option (List SigEntry) :=
    match req.signatures with
    | some arr => some arr
    | none =>
      if strTruthy req.signatureDataUrl && req.coordinates.isSome then
        some [{ signatureDataUrl := req.signatureDataUrl, coordinates := req.coordinates }]
      else none
  match signatureList with
  | none => .badRequest "signatures array or signatureDataUrl+coordinates required"
  | some list =>
    if list.length = 0 then .badRequest "At least one signature is required"
    else .output (burnBatch dims list)

/-! ## Theorems -/

/-- C1: Axis-flip correctness of page-unit conversion: for every field and
every page geometry with nonzero `widthPts`, `heightPts`, `toPdfCoords`
produces a rectangle with `x = xNorm * widthPts`, `width = widthNorm * widthPts`,
`height = heightNorm * heightPts` and
`y = heightPts - yNorm * heightPts - heightNorm * heightPts`; in particular
`yNorm = 0` maps to `y = heightPts - height`, and for page `{600, 800}` and
field `{xNorm := 0, yNorm := 0, widthNorm := 1/2, heightNorm := 1/4}` the
placement rectangle is `{x := 0, y := 600, width := 300, height := 200}`. -/
theorem toPdfCoords_axis_flip (f : Field) (wPts hPts : ℚ)
    (hw : wPts ≠ 0) (hh : hPts ≠ 0) :
    (∃ rect, toPdfCoords (some f) (some { widthPts := some wPts, heightPts := some hPts }) =
        some rect ∧
      rect.x = f.xNorm * wPts ∧
      rect.width = f.widthNorm * wPts ∧
      rect.height = f.heightNorm * hPts ∧
      rect.y = hPts - f.yNorm * hPts - f.heightNorm * hPts ∧
      (f.yNorm = 0 → rect.y = hPts - rect.height)) ∧
    toPdfCoords
        (some { id := 0, page := 1, xNorm := 0, yNorm := 0,
                widthNorm := 1/2, heightNorm := 1/4, value := "" })
        (some { widthPts := some 600, heightPts := some 800 }) =
      some { page := some 1, x := 0, y := 600, width := 300, height := 200,
             pageWidth := 600, pageHeight := 800 } := by
  constructor
  · refine ⟨{ page := some f.page, x := f.xNorm * wPts,
              y := hPts - f.yNorm * hPts - f.heightNorm * hPts,
              width := f.widthNorm * wPts, height := f.heightNorm * hPts,
              pageWidth := wPts, pageHeight := hPts },
      by simp [toPdfCoords, hw, hh], rfl, rfl, rfl, rfl, ?_⟩
    intro h0
    simp [h0]
  · norm_num [toPdfCoords]

/-- Witness for C1 at the spec's concrete example. -/
theorem toPdfCoords_axis_flip_witness :
    ∃ rect, toPdfCoords
        (some { id := 0, page := 1, xNorm := 0, yNorm := 0,
                widthNorm := 1/2, heightNorm := 1/4, value := "" })
        (some { widthPts := some 600, heightPts := some 800 }) = some rect ∧
      rect.x = (0 : ℚ) * 600 ∧
      rect.width = (1/2 : ℚ) * 600 ∧
      rect.height = (1/4 : ℚ) * 800 ∧
      rect.y = 800 - (0 : ℚ) * 800 - (1/4 : ℚ) * 800 ∧
      ((0 : ℚ) = 0 → rect.y = 800 - rect.height) :=
  (toPdfCoords_axis_flip
    { id := 0, page := 1, xNorm := 0, yNorm := 0,
      widthNorm := 1/2, heightNorm := 1/4, value := "" }
    600 800 (by norm_num) (by norm_num)).1

/-- C8: Missing-geometry null result: when the field is absent, or the page
geometry is absent, or its `widthPts` or `heightPts` is absent or zero,
`toPdfCoords` returns `null` instead of a placement rectangle. -/
theorem toPdfCoords_missing_null (f : Field) (fo : Option Field)
    (pm : PageMeta) (pmo : Option PageMeta)
    (h : pm.widthPts = none ∨ pm.widthPts = some 0 ∨
         pm.heightPts = none ∨ pm.heightPts = some 0) :
    toPdfCoords none pmo = none ∧
    toPdfCoords fo none = none ∧
    toPdfCoords (some f) (some pm) = none := by
  refine ⟨?_, ?_, ?_⟩
  · cases pmo <;> rfl
  · cases fo <;> rfl
  · obtain ⟨w, h'⟩ := pm
    rcases h with h | h | h | h <;> simp_all <;>
      cases w <;> cases h' <;> simp_all [toPdfCoords]

/-- Witness for C8: a page geometry whose width is not yet loaded. -/
theorem toPdfCoords_missing_null_witness :
    toPdfCoords none none = none ∧
    toPdfCoords (some { id := 0, page := 1, xNorm := 0, yNorm := 0,
                        widthNorm := 1/2, heightNorm := 1/4, value := "" }) none = none ∧
    toPdfCoords
      (some { id := 0, page := 1, xNorm := 0, yNorm := 0,
              widthNorm := 1/2, heightNorm := 1/4, value := "" })
      (some { widthPts := none, heightPts := some 800 }) = none :=
  toPdfCoords_missing_null
    { id := 0, page := 1, xNorm := 0, yNorm := 0,
      widthNorm := 1/2, heightNorm := 1/4, value := "" }
    (some { id := 0, page := 1, xNorm := 0, yNorm := 0,
            widthNorm := 1/2, heightNorm := 1/4, value := "" })
    { widthPts := none, heightPts := some 800 } none (Or.inl rfl)

/-- C3 counterexample: with a zero viewport width and height,
`updateFieldPosition` does not retain the field's prior fractional
coordinates: a field stored at `xNorm = 1/2, yNorm = 1/3` is rewritten to
`xNorm = 0, yNorm = 0` by the fallback branch, contradicting the claim that
the previously stored values are left unchanged. -/
theorem updateFieldPosition_zero_viewport_cex :
    (updateFieldPosition 0
        [{ id := 7, page := 1, xNorm := 1/2, yNorm := 1/3,
           widthNorm := 1/4, heightNorm := 1/5, value := "" }] 7 10 20 0).map
        (fun f => (f.xNorm, f.yNorm)) = [((0 : ℚ), (0 : ℚ))] ∧
    ((0 : ℚ), (0 : ℚ)) ≠ (((1 : ℚ)/2), ((1 : ℚ)/3)) := by
  constructor
  · norm_num [updateFieldPosition, applyPosition]
  · simp [Prod.ext_iff]

/-- C3 amended: with a zero (or unset) viewport dimension the conversion is
indeed skipped and no ill-defined value is stored, but the two operations
fall back differently: `updateFieldSize` retains every field's prior
`widthNorm`/`heightNorm` (the list is unchanged), while
`updateFieldPosition` stores `0` for the targeted field's `xNorm`/`yNorm`
instead of retaining the prior values; in both cases the values stored are
definite rationals (never NaN or Infinity). -/
theorem degenerate_viewport_fallbacks (fields : List Field) (id : Nat) (x y w h : ℚ) :
    updateFieldSize 0 fields id w h 0 = fields ∧
    updateFieldPosition 0 fields id x y 0 =
      fields.map (fun f => if f.id = id then { f with xNorm := 0, yNorm := 0 } else f) := by
  constructor
  · simp [updateFieldSize, applySize]
  · simp [updateFieldPosition, applyPosition]

/-- C6: Anchoring round-trip: converting a pixel rectangle to fractions via
the size and position updates, then deriving pixels again with the same
positive viewport dimensions, returns the original rectangle exactly (the
model is over ℚ, so "up to floating-point tolerance" becomes equality). -/
theorem anchoring_round_trip (f : Field) (x y w h vW vH : ℚ)
    (hW : 0 < vW) (hH : 0 < vH) :
    fieldPixels (applyPosition vW x y vH (applySize vW w h vH f)) vW vH = (x, y, w, h) := by
  have hW0 : vW ≠ 0 := ne_of_gt hW
  have hH0 : vH ≠ 0 := ne_of_gt hH
  simp [fieldPixels, applyPosition, applySize, hW0, hH0,
    div_mul_cancel₀, Prod.ext_iff]

/-- Witness for C6: a 100×50 pixel rectangle at (10, 20) in an 800×600
viewport round-trips exactly. -/
theorem anchoring_round_trip_witness :
    fieldPixels
      (applyPosition 800 10 20 600
        (applySize 800 100 50 600
          { id := 1, page := 1, xNorm := 0, yNorm := 0,
            widthNorm := 1/4, heightNorm := 1/8, value := "" })) 800 600 =
      (10, 20, 100, 50) :=
  anchoring_round_trip
    { id := 1, page := 1, xNorm := 0, yNorm := 0,
      widthNorm := 1/4, heightNorm := 1/8, value := "" }
    10 20 100 50 800 600 (by norm_num) (by norm_num)

/-- C2: Aspect-fit containment and ratio preservation: for a placement
rectangle with positive width and height and an image with positive
dimensions, the compositor's draw size is `imgW * scale` by `imgH * scale`
with `scale = min(width/imgW, height/imgH)`, fits inside the box, and keeps
the image's aspect ratio exactly (the model is over ℚ). -/
theorem aspect_fit_containment (c : PdfCoords) (imgW imgH : ℚ)
    (hw : 0 < c.width) (hh : 0 < c.height) (hiw : 0 < imgW) (hih : 0 < imgH) :
    (drawRect c imgW imgH).width = imgW * fitScale c.width c.height imgW imgH ∧
    (drawRect c imgW imgH).height = imgH * fitScale c.width c.height imgW imgH ∧
    (drawRect c imgW imgH).width ≤ c.width ∧
    (drawRect c imgW imgH).height ≤ c.height ∧
    (drawRect c imgW imgH).width / (drawRect c imgW imgH).height = imgW / imgH := by
  have hfs : fitScale c.width c.height imgW imgH =
      min (c.width / imgW) (c.height / imgH) := rfl
  have hs : 0 < fitScale c.width c.height imgW imgH := by
    rw [hfs]
    exact lt_min (div_pos hw hiw) (div_pos hh hih)
  have hW : (drawRect c imgW imgH).width = imgW * fitScale c.width c.height imgW imgH := rfl
  have hH : (drawRect c imgW imgH).height = imgH * fitScale c.width c.height imgW imgH := rfl
  refine ⟨hW, hH, ?_, ?_, ?_⟩
  · rw [hW]
    calc imgW * fitScale c.width c.height imgW imgH
        ≤ imgW * (c.width / imgW) := by
          rw [hfs]
          exact mul_le_mul_of_nonneg_left (min_le_left _ _) hiw.le
      _ = c.width := by
          field_simp
  · rw [hH]
    calc imgH * fitScale c.width c.height imgW imgH
        ≤ imgH * (c.height / imgH) := by
          rw [hfs]
          exact mul_le_mul_of_nonneg_left (min_le_right _ _) hih.le
      _ = c.height := by
          field_simp
  · rw [hW, hH]
    rw [mul_comm imgW _, mul_comm imgH _]
    exact mul_div_mul_left imgW imgH (ne_of_gt hs)

/-- Witness for C2: a 200×80 box and a 400×200 image. -/
theorem aspect_fit_containment_witness :
    (drawRect { page := some 1, x := 50, y := 100, width := 200, height := 80,
                pageWidth := 595, pageHeight := 842 } 400 200).width ≤ 200 ∧
    (drawRect { page := some 1, x := 50, y := 100, width := 200, height := 80,
                pageWidth := 595, pageHeight := 842 } 400 200).height ≤ 80 := by
  have h := aspect_fit_containment
    { page := some 1, x := 50, y := 100, width := 200, height := 80,
      pageWidth := 595, pageHeight := 842 } 400 200
    (by norm_num) (by norm_num) (by norm_num) (by norm_num)
  exact ⟨h.2.2.1, h.2.2.2.1⟩

/-- C7: Centering of the draw rectangle: `drawX = x + (width - drawW)/2` and
`drawY = y + (height - drawH)/2`, giving symmetric left/right and top/bottom
margins; in particular for box `{x := 50, y := 100, width := 200, height := 80}`
and a 400×200 image, `scale = 2/5`, `drawW = 160`, `drawH = 80`,
`drawX = 70`, `drawY = 100`. -/
theorem draw_rect_centering (c : PdfCoords) (imgW imgH : ℚ)
    (_hw : 0 < c.width) (_hh : 0 < c.height) (_hiw : 0 < imgW) (_hih : 0 < imgH) :
    ((drawRect c imgW imgH).x = c.x + (c.width - (drawRect c imgW imgH).width) / 2 ∧
     (drawRect c imgW imgH).y = c.y + (c.height - (drawRect c imgW imgH).height) / 2 ∧
     (drawRect c imgW imgH).x - c.x =
       c.width - (drawRect c imgW imgH).width - ((drawRect c imgW imgH).x - c.x) ∧
     (drawRect c imgW imgH).y - c.y =
       c.height - (drawRect c imgW imgH).height - ((drawRect c imgW imgH).y - c.y)) ∧
    fitScale 200 80 400 200 = 2/5 ∧
    drawRect { page := some 1, x := 50, y := 100, width := 200, height := 80,
               pageWidth := 595, pageHeight := 842 } 400 200 =
      { pageIndex := 0, x := 70, y := 100, width := 160, height := 80 } := by
  refine ⟨⟨rfl, rfl, by simp [drawRect]; ring, by simp [drawRect]; ring⟩, ?_, ?_⟩
  · norm_num [fitScale]
  · norm_num [drawRect, fitScale, pageIndexOf, DrawOp.mk.injEq]

/-- Witness for C7 at the spec's concrete scenario. -/
theorem draw_rect_centering_witness :
    drawRect { page := some 1, x := 50, y := 100, width := 200, height := 80,
               pageWidth := 595, pageHeight := 842 } 400 200 =
      { pageIndex := 0, x := 70, y := 100, width := 160, height := 80 } :=
  (draw_rect_centering
    { page := some 1, x := 50, y := 100, width := 200, height := 80,
      pageWidth := 595, pageHeight := 842 } 400 200
    (by norm_num) (by norm_num) (by norm_num) (by norm_num)).2.2

/-- C10: Page-index defaulting and clamping: the page drawn on is
`max(0, (coordinates.page || 1) - 1)`, so a missing, zero, or negative page
value lands on page index 0, and a positive page value `p` lands on index
`p - 1`. -/
theorem page_index_defaulting (p q : Int) (hp : 0 < p) (hq : q < 0)
    (c : PdfCoords) (imgW imgH : ℚ) :
    (drawRect c imgW imgH).pageIndex = pageIndexOf c.page ∧
    pageIndexOf none = 0 ∧
    pageIndexOf (some 0) = 0 ∧
    pageIndexOf (some q) = 0 ∧
    pageIndexOf (some p) = p - 1 := by
  refine ⟨rfl, rfl, rfl, ?_, ?_⟩
  · have hdef : pageIndexOf (some q) = max 0 ((if q = 0 then 1 else q) - 1) := rfl
    rw [hdef, if_neg (ne_of_lt hq)]
    exact max_eq_left (by omega)
  · have hdef : pageIndexOf (some p) = max 0 ((if p = 0 then 1 else p) - 1) := rfl
    rw [hdef, if_neg (ne_of_gt hp)]
    exact max_eq_right (by omega)

/-- Witness for C10 at page values 3 and -2. -/
theorem page_index_defaulting_witness :
    (drawRect { page := some 3, x := 0, y := 0, width := 1, height := 1,
                pageWidth := 595, pageHeight := 842 } 1 1).pageIndex =
      pageIndexOf (some 3) ∧
    pageIndexOf none = 0 ∧
    pageIndexOf (some 0) = 0 ∧
    pageIndexOf (some (-2)) = 0 ∧
    pageIndexOf (some 3) = 3 - 1 :=
  page_index_defaulting 3 (-2) (by norm_num) (by norm_num)
    { page := some 3, x := 0, y := 0, width := 1, height := 1,
      pageWidth := 595, pageHeight := 842 } 1 1

/-- A burn-loop iteration produces a draw exactly for the entries the loop
guard accepts. -/
lemma drawForEntry_isSome (dims : String → ℚ × ℚ) (e : SigEntry) :
    (drawForEntry dims e).isSome = validEntry e := by
  obtain ⟨u, c⟩ := e
  cases u with
  | none => cases c <;> rfl
  | some s =>
    cases c with
    | none => simp [drawForEntry, validEntry]
    | some pc =>
      by_cases hs : s = "" <;>
        simp [drawForEntry, validEntry, strTruthy, hs]

/-- The number of kept results of a `filterMap` is the number of inputs on
which the function succeeds. -/
lemma length_filterMap_count {α β : Type} (f : α → Option β) (l : List α) :
    (l.filterMap f).length = l.countP (fun a => (f a).isSome) := by
  induction l with
  | nil => rfl
  | cons a l ih =>
    cases h : f a <;>
      simp [List.filterMap_cons, h, List.countP_cons, ih]

/-- C5: Batch skip semantics: a nonempty batch is never rejected — every
entry lacking a truthy signature image or coordinates is skipped, each
remaining valid entry is drawn with its aspect-fitted rectangle, and the
number of draw operations equals the number of valid entries. -/
theorem batch_skip_semantics (dims : String → ℚ × ℚ) (entries : List SigEntry)
    (hne : entries ≠ []) :
    signPdf dims { signatures := some entries, signatureDataUrl := none,
                   coordinates := none } = .output (burnBatch dims entries) ∧
    (burnBatch dims entries).length = entries.countP (fun e => validEntry e) ∧
    (∀ e ∈ entries, validEntry e = false → drawForEntry dims e = none) ∧
    (∀ e ∈ entries, validEntry e = true → ∃ s c, e.signatureDataUrl = some s ∧
      e.coordinates = some c ∧
      drawForEntry dims e = some (drawRect c (dims s).1 (dims s).2)) := by
  refine ⟨?_, ?_, ?_, ?_⟩
  · simp [signPdf, List.length_eq_zero, hne]
  · rw [burnBatch, length_filterMap_count]
    simp [drawForEntry_isSome]
  · intro e _ hval
    have h := drawForEntry_isSome dims e
    rw [hval] at h
    cases hde : drawForEntry dims e with
    | none => rfl
    | some d =>
      rw [hde] at h
      simp at h
  · intro e _ hval
    obtain ⟨u, c⟩ := e
    have h := drawForEntry_isSome dims ⟨u, c⟩
    rw [hval] at h
    cases u with
    | none => simp [validEntry, strTruthy] at hval
    | some s =>
      cases c with
      | none => simp [validEntry] at hval
      | some pc =>
        have hs : s ≠ "" := by
          simpa [validEntry, strTruthy] using hval
        exact ⟨s, pc, rfl, rfl, by simp [drawForEntry, hs]⟩

/-- A representative placement rectangle for concrete instances. -/
def sampleCoords : PdfCoords :=
  { page := some 1, x := 50, y := 100, width := 200, height := 80,
    pageWidth := 595, pageHeight := 842 }

/-- A batch entry with a (stand-in) signature data URL and coordinates. -/
def sampleEntry (tag : String) : SigEntry :=
  { signatureDataUrl := some tag, coordinates := some sampleCoords }

/-- A batch entry whose signature field was never drawn (no image value). -/
def noImageEntry : SigEntry :=
  { signatureDataUrl := none, coordinates := some sampleCoords }

/-- Witness for C5: a batch of 3 placements, one of which has no image,
succeeds with exactly 2 draws. -/
theorem batch_skip_semantics_witness :
    signPdf (fun _ => (400, 200))
      { signatures := some [sampleEntry "sigA", noImageEntry, sampleEntry "sigB"],
        signatureDataUrl := none, coordinates := none } =
      .output (burnBatch (fun _ => (400, 200))
        [sampleEntry "sigA", noImageEntry, sampleEntry "sigB"]) ∧
    (burnBatch (fun _ => (400, 200))
        [sampleEntry "sigA", noImageEntry, sampleEntry "sigB"]).length = 2 := by
  have h := batch_skip_semantics (fun _ => (400, 200))
    [sampleEntry "sigA", noImageEntry, sampleEntry "sigB"] (by simp)
  refine ⟨h.1, ?_⟩
  rw [h.2.1]
  rfl

/-- C4 counterexample: a request whose signature list is nonempty but
contains zero valid placements (its one entry lacks both image and
coordinates) is not rejected: the handler produces an output document with
zero draw operations, contradicting the claim that such a request is
rejected with an error and no output is produced. -/
theorem zero_valid_batch_cex :
    signPdf (fun _ => (400, 200))
      { signatures := some [{ signatureDataUrl := none, coordinates := none }],
        signatureDataUrl := none, coordinates := none } = .output [] := rfl

/-- C4 amended: only a literally empty signatures list (or a request
supplying neither format) is rejected before processing; a nonempty list
whose entries are all invalid is not rejected — every entry is skipped and
an output document with zero draw operations is produced. -/
theorem zero_valid_batch_amended (dims : String → ℚ × ℚ) (entries : List SigEntry)
    (hne : entries ≠ []) (hall : ∀ e ∈ entries, validEntry e = false) :
    signPdf dims { signatures := none, signatureDataUrl := none,
                   coordinates := none } =
      .badRequest "signatures array or signatureDataUrl+coordinates required" ∧
    signPdf dims { signatures := some [], signatureDataUrl := none,
                   coordinates := none } =
      .badRequest "At least one signature is required" ∧
    signPdf dims { signatures := some entries, signatureDataUrl := none,
                   coordinates := none } = .output [] := by
  refine ⟨rfl, rfl, ?_⟩
  have hburn : burnBatch dims entries = [] := by
    rw [burnBatch, List.filterMap_eq_nil_iff]
    intro e he
    have h := drawForEntry_isSome dims e
    rw [hall e he] at h
    cases hde : drawForEntry dims e with
    | none => rfl
    | some d =>
      rw [hde] at h
      simp at h
  simp [signPdf, List.length_eq_zero, hne, hburn]

/-- Witness for C4's amended claim at a one-entry all-invalid batch. -/
theorem zero_valid_batch_amended_witness :
    signPdf (fun _ => (400, 200))
      { signatures := none, signatureDataUrl := none, coordinates := none } =
      .badRequest "signatures array or signatureDataUrl+coordinates required" ∧
    signPdf (fun _ => (400, 200))
      { signatures := some [], signatureDataUrl := none, coordinates := none } =
      .badRequest "At least one signature is required" ∧
    signPdf (fun _ => (400, 200))
      { signatures := some [{ signatureDataUrl := some "", coordinates := none }],
        signatureDataUrl := none, coordinates := none } = .output [] :=
  zero_valid_batch_amended (fun _ => (400, 200))
    [{ signatureDataUrl := some "", coordinates := none }]
    (by simp) (by intro e he; simp at he; simp [he, validEntry])

/-- A placement rectangle with non-positive (zero) width. -/
def degenerateCoords : PdfCoords :=
  { page := some 1, x := 10, y := 20, width := 0, height := 50,
    pageWidth := 595, pageHeight := 842 }

/-- C9 counterexample: an entry whose placement rectangle has width 0 is
accepted by the loop guard and drawn anyway (a draw call with width 0 and
height 0 is issued) and the request succeeds with no per-placement error,
contradicting the claim that such a placement is not drawn and is reported
as unrecoverable. -/
theorem invalid_placement_cex :
    degenerateCoords.width ≤ 0 ∧
    validEntry { signatureDataUrl := some "sig",
                 coordinates := some degenerateCoords } = true ∧
    signPdf (fun _ => (10, 10))
      { signatures := some [{ signatureDataUrl := some "sig",
                              coordinates := some degenerateCoords }],
        signatureDataUrl := none, coordinates := none } =
      .output [{ pageIndex := 0, x := 10, y := 45, width := 0, height := 0 }] := by
  refine ⟨le_refl 0, rfl, ?_⟩
  have hsig : ("sig" : String) ≠ "" := by decide
  have hmin : fitScale (0 : ℚ) 50 10 10 = 0 := by
    rw [fitScale, min_def]
    norm_num
  norm_num [signPdf, burnBatch, List.filterMap_cons, drawForEntry, drawRect,
    pageIndexOf, degenerateCoords, hsig, hmin, DrawOp.mk.injEq]

/-- C9 amended: the backend performs no validation of placement width or
height — an entry whose coordinates have non-positive width or height is
still drawn (its draw call is issued, with the correspondingly degenerate
dimensions) and no per-placement error is reported, while the remaining
entries of the batch are processed normally. -/
theorem invalid_placement_amended (dims : String → ℚ × ℚ) (s : String)
    (c : PdfCoords) (rest : List SigEntry) (hs : s ≠ "")
    (_hnp : c.width ≤ 0 ∨ c.height ≤ 0) :
    drawForEntry dims { signatureDataUrl := some s, coordinates := some c } =
      some (drawRect c (dims s).1 (dims s).2) ∧
    burnBatch dims ({ signatureDataUrl := some s, coordinates := some c } :: rest) =
      drawRect c (dims s).1 (dims s).2 :: burnBatch dims rest := by
  have h1 : drawForEntry dims { signatureDataUrl := some s, coordinates := some c } =
      some (drawRect c (dims s).1 (dims s).2) := by
    simp [drawForEntry, hs]
  exact ⟨h1, by simp [burnBatch, List.filterMap_cons, h1]⟩

/-- Witness for C9's amended claim: the zero-width placement is drawn and a
following entry is still processed. -/
theorem invalid_placement_amended_witness :
    drawForEntry (fun _ => (10, 10))
      { signatureDataUrl := some "sig", coordinates := some degenerateCoords } =
      some (drawRect degenerateCoords
        ((fun (_ : String) => ((10 : ℚ), (10 : ℚ))) "sig").1
        ((fun (_ : String) => ((10 : ℚ), (10 : ℚ))) "sig").2) ∧
    burnBatch (fun _ => (10, 10))
      ({ signatureDataUrl := some "sig", coordinates := some degenerateCoords } ::
        [sampleEntry "sigB"]) =
      drawRect degenerateCoords
        ((fun (_ : String) => ((10 : ℚ), (10 : ℚ))) "sig").1
        ((fun (_ : String) => ((10 : ℚ), (10 : ℚ))) "sig").2 ::
        burnBatch (fun _ => (10, 10)) [sampleEntry "sigB"] :=
  invalid_placement_amended (fun _ => (10, 10)) "sig" degenerateCoords
    [sampleEntry "sigB"] (by simp)
    (Or.inl (by norm_num [degenerateCoords]))

end BoloSignature
